import Mathlib

/-
Verification of the SOAP Service Reference Auto-Runner extension
(src/src/extension.ts) against its natural-language specification.

The development shallowly embeds the state and operations of the extension:

  * recentlyCreatedFiles / runningProcesses : JS Sets of path strings,
    modelled as lists with membership and removal helpers;
  * wsdlMonitors : JS Map path -> interval handle, modelled as an
    association list of (path, timer id); live interval timers are
    tracked explicitly in a liveTimers field so that a timer replaced
    in the map without clearInterval remains visibly live;
  * wsdlHashes : JS Map url -> md5 hex digest, modelled as an
    association list of (url, fingerprint); the composite
    "fetch + hash" is a single oracle of type String -> Option String
    (none = fetch threw), which is sound because md5 of byte-identical
    content is deterministic;
  * runDotnetSvcUtil's synchronous entry (lines 116-234), which runs
    from the recentlyCreatedFiles check through the spawn with no
    await in between, is modelled as the atomic function svcStart;
    its close / error handlers (lines 252-287) as svcProcExit;
  * checkWsdlChanges (lines 704-767) as a recursive function over the
    input list, returning the updated hash store, the identifiers for
    which a fetch was attempted, and the identifier (if any) whose
    change broke the loop.
-/

set_option autoImplicit false

namespace SoapAutoRunner

/-! ## Generic helpers: JS Set and Map on string keys -/

/-- Membership test for a JS Set of strings modelled as a list. -/
def hasStr : List String → String → Bool
  | [], _ => false
  | y :: ys, x => if y = x then true else hasStr ys x

/-- Removal for a JS Set of strings modelled as a list (Set.delete). -/
def remStr : List String → String → List String
  | [], _ => []
  | y :: ys, x => if y = x then remStr ys x else y :: remStr ys x

/-- Lookup in a JS Map modelled as an association list (Map.get). -/
def getKey {ν : Type} : List (String × ν) → String → Option ν
  | [], _ => none
  | (k, v) :: rest, x => if k = x then some v else getKey rest x

/-- Insertion/replacement in a JS Map modelled as an association list
(Map.set): replaces in place, preserving insertion order, else appends. -/
def setKey {ν : Type} : List (String × ν) → String → ν → List (String × ν)
  | [], k, v => [(k, v)]
  | (k', v') :: rest, k, v =>
      if k' = k then (k, v) :: rest else (k', v') :: setKey rest k v

/-- Removal from a JS Map modelled as an association list (Map.delete). -/
def delKey {ν : Type} : List (String × ν) → String → List (String × ν)
  | [], _ => []
  | (k', v') :: rest, x =>
      if k' = x then delKey rest x else (k', v') :: delKey rest x

/-- Model of the JavaScript String.prototype.startsWith test. -/
def strStartsWith (s pre : String) : Bool :=
  pre.toList.isPrefixOf s.toList

/-- Model of the JavaScript String.prototype.endsWith test. -/
def strEndsWith (s post : String) : Bool :=
  post.toList.isSuffixOf s.toList

/-! ## Configuration document (dotnet-svcutil.params.json, options object) -/

/-- The options object of a parsed configuration document
(src/src/extension.ts line 162: parsedParams.options).  Each field is
optional because JSON.parse may yield an object missing any of them; a
present-but-empty string is distinct from an absent field, mirroring
JavaScript truthiness checks in the source. -/
structure SvcOptions where
  inputs : Option (List String)
  namespaceMappings : Option (List String)
  outputFile : Option String
  targetFramework : Option String
  typeReuseMode : Option String
  references : Option (List String)
deriving DecidableEq, Repr

/-- One flag-plus-value pair per list element, as pushed by the source's
forEach loops for namespace mappings (-n) and references (-r). -/
def pairFlags (flag : String) : List String → List String
  | [] => []
  | x :: xs => flag :: x :: pairFlags flag xs

/-- Argument list built by runDotnetSvcUtil (src/src/extension.ts lines
160-216), translated push by push.  The conditions mirror the source's
JavaScript truthiness tests: a field that is absent, and a string field
that is the empty string, both fail the `if (options.field)` guard. -/
def buildArgs (o : SvcOptions) : List String :=
  let args := ["svcutil"]
  let args := match o.inputs with
    | some l => args ++ l
    | none => args
  let args := match o.namespaceMappings with
    | some l => args ++ pairFlags "-n" l
    | none => args
  let args := match o.outputFile with
    | some f => if f ≠ "" then args ++ ["-o", f] else args
    | none => args
  let args := args ++ ["-d", "."]
  let args := match o.targetFramework with
    | some tf => if tf ≠ "" then args ++ ["-tf", tf] else args
    | none => args
  let args := match o.typeReuseMode with
    | some m => if m ≠ "" ∧ m ≠ "All" then args ++ ["-ntr"] else args
    | none => args
  let args := match o.references with
    | some l => args ++ pairFlags "-r" l
    | none => args
  args

/-! ## Extension state -/

/-- A live interval timer created by setInterval in startWsdlMonitoring
(src/src/extension.ts line 670): its identity, the params-file path it
polls for, and the inputs list captured by the callback's closure. -/
structure Timer where
  id : Nat
  path : String
  inputs : List String
deriving DecidableEq, Repr

/-- The module-level mutable state of the extension
(src/src/extension.ts lines 10-14), plus explicit bookkeeping of live
interval timers (liveTimers, allocated with fresh ids via nextTimer) so
that an interval which is dropped from wsdlMonitors without
clearInterval remains visible as still firing. -/
structure ExtState where
  recentlyCreatedFiles : List String
  runningProcesses : List String
  wsdlMonitors : List (String × Nat)
  wsdlHashes : List (String × String)
  liveTimers : List Timer
  nextTimer : Nat
deriving DecidableEq, Repr

/-- The state at extension activation: all sets and maps empty. -/
def emptyState : ExtState := ⟨[], [], [], [], [], 0⟩

/-! ## runDotnetSvcUtil -/

/-- Outcome of the synchronous entry of runDotnetSvcUtil: one of the
three early returns (lines 122-136), the parse-failure return
(line 157), or a successful spawn carrying the argument list. -/
inductive StartResult where
  | skippedRecent
  | skippedRunning
  | skippedAutoRun
  | parseError
  | spawned (args : List String)
deriving DecidableEq, Repr

/-- Synchronous entry of runDotnetSvcUtil (src/src/extension.ts lines
116-234): the recentlyCreatedFiles check, the runningProcesses check,
the autoRun check, the add to runningProcesses, the readFileSync +
JSON.parse of the params file (parse = none models a thrown parse or
read error), argument construction, and spawn.  None of these steps
awaits, so the whole entry is one atomic step of the single-threaded
event loop.  The parse-failure branch returns without deleting the path
from runningProcesses, exactly as the source does at line 157. -/
def svcStart (autoRun : Bool) (parse : Option SvcOptions) (p : String)
    (s : ExtState) : ExtState × StartResult :=
  if hasStr s.recentlyCreatedFiles p then (s, .skippedRecent)
  else if hasStr s.runningProcesses p then (s, .skippedRunning)
  else if !autoRun then (s, .skippedAutoRun)
  else
    let s1 := { s with runningProcesses := p :: s.runningProcesses }
    match parse with
    | none => (s1, .parseError)
    | some o => (s1, .spawned (buildArgs o))

/-- The close and error handlers of the spawned process
(src/src/extension.ts lines 252-256 and 279-283): both delete the path
from runningProcesses. -/
def svcProcExit (p : String) (s : ExtState) : ExtState :=
  { s with runningProcesses := remStr s.runningProcesses p }

/-- The distinct call sites of runDotnetSvcUtil in the source: the
file-watcher change and create handlers (lines 97-109, 487-499), the
manual command (line 34), and the WSDL-monitor path with auto-update on
(line 739) or after an accepted prompt (line 756). -/
inductive Trigger where
  | watcherChange
  | watcherCreate
  | manualCommand
  | monitorAutoUpdate
  | monitorPromptAccept
deriving DecidableEq, Repr

/-- Every trigger path calls the same runDotnetSvcUtil entry with the
affected params-file path; no call site bypasses its checks. -/
def handleTrigger (_t : Trigger) (autoRun : Bool) (parse : Option SvcOptions)
    (p : String) (s : ExtState) : ExtState × StartResult :=
  svcStart autoRun parse p s

/-! ## generateSvcParamsFile -/

/-- The effectful statements of generateSvcParamsFile after all user
prompts have been answered (src/src/extension.ts lines 374-385), in
source order: write the params file (line 375), add its path to
recentlyCreatedFiles (line 378), schedule its removal after 3000
milliseconds (lines 379-381), then open the created document. -/
inductive GenAction where
  | writeFile (p : String)
  | addRecent (p : String)
  | scheduleExpiry (p : String) (ms : Nat)
  | openDoc (p : String)
deriving DecidableEq, Repr

/-- The synchronous block of generateSvcParamsFile from the write to the
first await (openTextDocument at line 384 is the first suspension point
after the write): write, add to the suppression set, schedule expiry. -/
def generateSvcParamsSyncActions (p : String) : List GenAction :=
  [.writeFile p, .addRecent p, .scheduleExpiry p 3000]

/-- The full effect trace of the creation flow: the synchronous block
followed by the awaited document open. -/
def generateSvcParamsTrace (p : String) : List GenAction :=
  generateSvcParamsSyncActions p ++ [.openDoc p]

/-- Effect of one action on the extension state: only addRecent mutates
it (writeFile touches the file system, scheduleExpiry arms a timeout,
openDoc drives the editor). -/
def execGenAction (s : ExtState) : GenAction → ExtState
  | .addRecent p => { s with recentlyCreatedFiles := p :: s.recentlyCreatedFiles }
  | _ => s

/-- State after the synchronous block of generateSvcParamsFile; because
the block contains no suspension point, no file-watcher callback can
run before it completes. -/
def generateSvcParamsSync (p : String) (s : ExtState) : ExtState :=
  (generateSvcParamsSyncActions p).foldl execGenAction s

/-! ## WSDL change detection -/

/-- An input counts as network-fetchable when it is scheme-prefixed
(src/src/extension.ts lines 652 and 706). -/
def isFetchable (u : String) : Bool :=
  strStartsWith u "http://" || strStartsWith u "https://"

/-- A path is a params document when it ends in the fixed file name
(src/src/extension.ts lines 635 and 688). -/
def isParamsPath (p : String) : Bool :=
  strEndsWith p "dotnet-svcutil.params.json"

/-- The fingerprint store: WSDL url to last-observed md5 hex digest
(src/src/extension.ts line 14, wsdlHashes). -/
abbrev Store := List (String × String)

/-- Result of one checkWsdlChanges pass: the hash store afterwards, the
identifiers for which a fetch was attempted (in order), and the
identifiers whose change branch fired during the pass (in order). -/
structure CheckResult where
  store : Store
  fetched : List String
  changed : List String
deriving DecidableEq, Repr

/-- checkWsdlChanges (src/src/extension.ts lines 704-767) with the
fetch-and-hash pipeline abstracted as an oracle (none models a thrown
fetch).  Per identifier: skip it when not scheme-prefixed; on fetch
failure log and continue; when no prior hash exists nothing is written
to the store — the only Map.set in the function is inside the change
branch (line 725) — and the loop continues.  In the change branch the
store is set to the new hash first (line 725), then the policy action
runs: with auto-update on, await runDotnetSvcUtil (line 739); otherwise
an awaited prompt, and on acceptance await runDotnetSvcUtil (line 756).
The break (line 760) sits after those awaits inside the try block, so
it is reached only when the awaited action resolves; a rejected
generation promise — for example the spawn-error reject at line 286
propagating through withProgress — is caught by the per-identifier
catch (line 762) and the loop continues with the remaining identifiers.
The genThrows oracle tells whether the awaited policy action for the
change detected at an identifier rejects. -/
def checkWsdlChanges (fetch : String → Option String)
    (genThrows : String → Bool) : List String → Store → CheckResult
  | [], st => ⟨st, [], []⟩
  | u :: rest, st =>
    if isFetchable u then
      match fetch u with
      | some h =>
        match getKey st u with
        | some old =>
          if h = old then
            let r := checkWsdlChanges fetch genThrows rest st
            ⟨r.store, u :: r.fetched, r.changed⟩
          else
            if genThrows u then
              let r := checkWsdlChanges fetch genThrows rest (setKey st u h)
              ⟨r.store, u :: r.fetched, u :: r.changed⟩
            else
              ⟨setKey st u h, [u], [u]⟩
        | none =>
          let r := checkWsdlChanges fetch genThrows rest st
          ⟨r.store, u :: r.fetched, r.changed⟩
      | none =>
        let r := checkWsdlChanges fetch genThrows rest st
        ⟨r.store, u :: r.fetched, r.changed⟩
    else
      let r := checkWsdlChanges fetch genThrows rest st
      ⟨r.store, r.fetched, r.changed⟩

/-- Whether one identifier, checked against a given store, takes the
change branch of checkWsdlChanges: fetchable, fetch succeeds, a prior
hash exists, and the new hash differs. -/
def firesChange (fetch : String → Option String) (st : Store) (u : String) : Bool :=
  isFetchable u &&
    match fetch u, getKey st u with
    | some h, some old => decide (h ≠ old)
    | _, _ => false

/-- Repeated polling of a single identifier: one checkWsdlChanges pass
per element of the fingerprint sequence, each fetch of the identifier
yielding the next fingerprint, threading the store through.  Returns
whether each pass reported a change. -/
def runChecks (url : String) (genThrows : String → Bool) :
    List String → Store → List Bool
  | [], _ => []
  | h :: rest, st =>
    (!(checkWsdlChanges (fun u => if u = url then some h else none)
        genThrows [url] st).changed.isEmpty) ::
      runChecks url genThrows rest
        (checkWsdlChanges (fun u => if u = url then some h else none)
          genThrows [url] st).store

/-! ## WSDL monitoring lifecycle -/

/-- The baseline-hash loop of startWsdlMonitoring (src/src/extension.ts
lines 650-663): for each scheme-prefixed input, fetch and store the
hash; a failed fetch is logged and the baseline simply omitted. -/
def initialHashes (fetch : String → Option String)
    (inputs : List String) (st : Store) : Store :=
  inputs.foldl
    (fun st u =>
      if isFetchable u then
        match fetch u with
        | some h => setKey st u h
        | none => st
      else st)
    st

/-- startWsdlMonitoring (src/src/extension.ts lines 633-684): reject a
non-params path; on read or parse failure (parse = none) return via the
catch block; return when inputs is empty; otherwise record baseline
hashes, create a fresh interval timer whose callback closes over the
inputs list read now, and Map.set it into wsdlMonitors.  The source
never checks whether the path is already monitored and never calls
clearInterval on a previous timer here, so a prior timer for the same
path stays in liveTimers. -/
def startWsdlMonitoring (fetch : String → Option String)
    (parse : Option (List String)) (p : String) (s : ExtState) : ExtState :=
  if isParamsPath p then
    match parse with
    | none => s
    | some inputs =>
      if inputs.isEmpty then s
      else
        let t : Timer := ⟨s.nextTimer, p, inputs⟩
        { s with
          wsdlHashes := initialHashes fetch inputs s.wsdlHashes
          liveTimers := t :: s.liveTimers
          wsdlMonitors := setKey s.wsdlMonitors p t.id
          nextTimer := s.nextTimer + 1 }
  else s

/-- stopWsdlMonitoring (src/src/extension.ts lines 686-702): look the
path up in wsdlMonitors; when present, clearInterval that single timer
and delete the map entry; otherwise do nothing. -/
def stopWsdlMonitoring (p : String) (s : ExtState) : ExtState :=
  if isParamsPath p then
    match getKey s.wsdlMonitors p with
    | some tid =>
      { s with
        liveTimers := s.liveTimers.filter (fun t => t.id ≠ tid)
        wsdlMonitors := delKey s.wsdlMonitors p }
    | none => s
  else s

/-- deactivate (src/src/extension.ts lines 869-880): clearInterval every
timer reachable from wsdlMonitors.values(), then clear the monitor and
hash maps.  A live timer whose id is no longer in the map is not
cleared. -/
def deactivate (s : ExtState) : ExtState :=
  { s with
    liveTimers :=
      s.liveTimers.filter
        (fun t => !((s.wsdlMonitors.map (fun kv => kv.2)).contains t.id))
    wsdlMonitors := []
    wsdlHashes := [] }

/-- One tick of the recurring monitor callback (src/src/extension.ts
lines 670-672): it invokes checkWsdlChanges with the inputs list the
closure captured when monitoring started.  The _curInputs argument
stands for the inputs the configuration document holds at tick time; it
is unused because the callback never re-reads the document. -/
def monitorTick (fetch : String → Option String) (genThrows : String → Bool)
    (_curInputs : Option (List String)) (t : Timer) (st : Store) : CheckResult :=
  checkWsdlChanges fetch genThrows t.inputs st

/-- Order witness used to state whether the suppression-set insertion
precedes the file write in an effect trace. -/
def addRecentBeforeWrite (l : List GenAction) (p : String) : Prop :=
  ∃ i j : Fin l.length, i.val < j.val
    ∧ l.get i = GenAction.addRecent p
    ∧ l.get j = GenAction.writeFile p

instance decAddRecentBeforeWrite (l : List GenAction) (p : String) :
    Decidable (addRecentBeforeWrite l p) := by
  unfold addRecentBeforeWrite
  infer_instance

/-! ## Shared lemmas -/

lemma hasStr_cons_self (p : String) (l : List String) : hasStr (p :: l) p = true := by
  simp [hasStr]

lemma getKey_setKey_self {ν : Type} (st : List (String × ν)) (k : String) (v : ν) :
    getKey (setKey st k v) k = some v := by
  induction st with
  | nil => simp [setKey, getKey]
  | cons kv rest ih =>
    obtain ⟨k', v'⟩ := kv
    by_cases h : k' = k
    · simp [setKey, h, getKey]
    · simp [setKey, h, getKey, ih]

lemma checkWsdl_single_same (fetch : String → Option String)
    (gen : String → Bool) (st : Store) (u h old : String)
    (hfet : isFetchable u = true) (hf : fetch u = some h)
    (hg : getKey st u = some old) (heq : h = old) :
    checkWsdlChanges fetch gen [u] st = ⟨st, [u], []⟩ := by
  simp [checkWsdlChanges, hfet, hf, hg, heq]

lemma checkWsdl_single_diff (fetch : String → Option String)
    (gen : String → Bool) (st : Store) (u h old : String)
    (hfet : isFetchable u = true) (hf : fetch u = some h)
    (hg : getKey st u = some old) (hne : h ≠ old) :
    checkWsdlChanges fetch gen [u] st = ⟨setKey st u h, [u], [u]⟩ := by
  cases hgen : gen u with
  | false => simp [checkWsdlChanges, hfet, hf, hg, hne, hgen]
  | true => simp [checkWsdlChanges, hfet, hf, hg, hne, hgen]

lemma checkWsdl_cons_nofire (fetch : String → Option String)
    (gen : String → Bool) (st : Store) (u : String) (rest : List String)
    (hno : firesChange fetch st u = false) :
    checkWsdlChanges fetch gen (u :: rest) st =
      ⟨(checkWsdlChanges fetch gen rest st).store,
       if isFetchable u then u :: (checkWsdlChanges fetch gen rest st).fetched
       else (checkWsdlChanges fetch gen rest st).fetched,
       (checkWsdlChanges fetch gen rest st).changed⟩ := by
  by_cases hfet : isFetchable u = true
  · unfold firesChange at hno
    cases hf : fetch u with
    | none => simp [checkWsdlChanges, hfet, hf]
    | some h =>
      cases hg : getKey st u with
      | none => simp [checkWsdlChanges, hfet, hf, hg]
      | some old =>
        rw [hf, hg] at hno
        simp [hfet] at hno
        simp [checkWsdlChanges, hfet, hf, hg, hno]
  · have hfet' : isFetchable u = false := by
      revert hfet; cases isFetchable u <;> simp
    simp [checkWsdlChanges, hfet']

/-! ## Claim C1 -/

/-- Claim C1 (code bug): runDotnetSvcUtil adds the target's path to
runningProcesses (line 143) before parsing the configuration document,
and the parse-failure catch block (lines 154-158) returns without
deleting it, so on that exit path the path stays in the in-flight set
forever: the run exits with parseError yet the path is still a member,
every subsequent trigger for the same path is skipped as already
running, while the modelled close and error handlers (svcProcExit) do
remove it on the other exit paths. -/
theorem runDotnetSvcUtil_parseError_leaves_inflight :
    (svcStart true none "ServiceReference/dotnet-svcutil.params.json" emptyState).2
      = StartResult.parseError
    ∧ hasStr (svcStart true none "ServiceReference/dotnet-svcutil.params.json"
        emptyState).1.runningProcesses "ServiceReference/dotnet-svcutil.params.json" = true
    ∧ (svcStart true (some ⟨none, none, none, none, none, none⟩)
        "ServiceReference/dotnet-svcutil.params.json"
        (svcStart true none "ServiceReference/dotnet-svcutil.params.json" emptyState).1).2
      = StartResult.skippedRunning
    ∧ hasStr (svcProcExit "ServiceReference/dotnet-svcutil.params.json"
        (svcStart true none "ServiceReference/dotnet-svcutil.params.json"
          emptyState).1).runningProcesses "ServiceReference/dotnet-svcutil.params.json"
      = false := by
  decide

/-! ## Claim C2 -/

/-- Claim C2 (code bug): startWsdlMonitoring never checks whether the
path is already monitored and never cancels a prior interval; a second
start for the same path creates a second live polling timer and merely
overwrites the wsdlMonitors entry, so two concurrent polling tasks for
one target exist, and the replaced timer can no longer be cancelled:
after deactivate (which clears only the intervals still reachable from
wsdlMonitors) the orphaned timer is still live. -/
theorem startWsdlMonitoring_double_start_leaks_timer :
    ((startWsdlMonitoring (fun _ => none) (some ["http://x"])
        "ServiceReference/dotnet-svcutil.params.json"
        (startWsdlMonitoring (fun _ => none) (some ["http://x"])
          "ServiceReference/dotnet-svcutil.params.json" emptyState)).liveTimers.filter
      (fun t => t.path == "ServiceReference/dotnet-svcutil.params.json")).length = 2
    ∧ (deactivate (startWsdlMonitoring (fun _ => none) (some ["http://x"])
        "ServiceReference/dotnet-svcutil.params.json"
        (startWsdlMonitoring (fun _ => none) (some ["http://x"])
          "ServiceReference/dotnet-svcutil.params.json" emptyState))).liveTimers.length = 1 := by
  decide

/-! ## Claim C3 -/

/-- Claim C3, counterexample: in the creation flow the write to storage
(line 375) happens before the path is added to recentlyCreatedFiles
(line 378), so the claim that the path is added to the suppression set
before the document is written does not hold of the effect trace. -/
theorem generateSvcParams_add_not_before_write :
    ¬ addRecentBeforeWrite
        (generateSvcParamsTrace "ServiceReference/dotnet-svcutil.params.json")
        "ServiceReference/dotnet-svcutil.params.json" := by
  decide

/-- Claim C3 (amended): the path is added to recentlyCreatedFiles
immediately after the write, within the same synchronous block (no
suspension point separates write, add, and the 3000 ms expiry
scheduling), so by the time any file-change callback can run the path
is in the suppression set and runDotnetSvcUtil returns skippedRecent. -/
theorem generateSvcParams_suppression_set_before_yield
    (p : String) (s : ExtState) (a : Bool) (parse : Option SvcOptions) :
    hasStr (generateSvcParamsSync p s).recentlyCreatedFiles p = true
    ∧ svcStart a parse p (generateSvcParamsSync p s)
        = (generateSvcParamsSync p s, StartResult.skippedRecent)
    ∧ GenAction.scheduleExpiry p 3000 ∈ generateSvcParamsSyncActions p := by
  have hsync : generateSvcParamsSync p s
      = { s with recentlyCreatedFiles := p :: s.recentlyCreatedFiles } := rfl
  refine ⟨?_, ?_, ?_⟩
  · rw [hsync]
    exact hasStr_cons_self p s.recentlyCreatedFiles
  · rw [hsync]
    simp [svcStart, hasStr_cons_self]
  · simp [generateSvcParamsSyncActions]

/-! ## Claim C4 -/

/-- Claim C4, counterexample: checking an identifier that has no prior
fingerprint reports no change but does not record the newly computed
fingerprint (here the oracle digest for http://a) as a baseline: the
store after the check still has no entry for the identifier, because
the only store update in checkWsdlChanges sits inside the change
branch. -/
theorem checkWsdlChanges_first_observation_not_recorded :
    (checkWsdlChanges (fun _ => some "d41d8cd9") (fun _ => false) ["http://a"] []).changed = []
    ∧ getKey (checkWsdlChanges (fun _ => some "d41d8cd9") (fun _ => false)
        ["http://a"] []).store "http://a" ≠ some "d41d8cd9" := by
  decide

/-- Claim C4 (amended): a first observation never fires a change — for
a fetchable identifier with no stored fingerprint the check reports no
change and leaves the store untouched; the baseline for an identifier
is recorded (when its fetch succeeds) only by the monitoring-start
hash-initialization loop, modelled by initialHashes. -/
theorem checkWsdlChanges_no_baseline_reports_unchanged
    (fetch : String → Option String) (gen : String → Bool) (st : Store)
    (url : String) (hfet : isFetchable url = true)
    (hnone : getKey st url = none) :
    checkWsdlChanges fetch gen [url] st = ⟨st, [url], []⟩
    ∧ ∀ h, fetch url = some h →
        getKey (initialHashes fetch [url] st) url = some h := by
  constructor
  · cases hf : fetch url with
    | none => simp [checkWsdlChanges, hfet, hf]
    | some h => simp [checkWsdlChanges, hfet, hf, hnone]
  · intro h hf
    simp [initialHashes, hfet, hf, getKey_setKey_self]

/-- Witness for the amended C4 theorem at a concrete input. -/
theorem checkWsdlChanges_no_baseline_witness :
    checkWsdlChanges (fun _ => some "d41d8cd9") (fun _ => false) ["http://a"] []
      = ⟨[], ["http://a"], []⟩
    ∧ ∀ h, (fun _ : String => some "d41d8cd9") "http://a" = some h →
        getKey (initialHashes (fun _ => some "d41d8cd9") ["http://a"] []) "http://a" = some h :=
  checkWsdlChanges_no_baseline_reports_unchanged (fun _ => some "d41d8cd9") (fun _ => false)
    [] "http://a" (by decide) (by decide)

/-! ## Claim C5 -/

/-- Claim C5: for a monitored identifier whose baseline is A and whose
successive fetches fingerprint to A, A, B, B, C, the checks report a
change exactly at the 3rd and 5th passes (the A-to-B and B-to-C
transitions), because the store is updated to the new fingerprint in
the same step in which the difference is detected. -/
theorem checkWsdlChanges_change_sequence_AABBC
    (url A B C : String) (gen : String → Bool) (hfet : isFetchable url = true)
    (hAB : A ≠ B) (hBC : B ≠ C) :
    runChecks url gen [A, A, B, B, C] (setKey [] url A)
      = [false, false, true, false, true] := by
  have hf : ∀ h : String, (fun u => if u = url then some h else none) url = some h := by
    intro h; simp
  have g0 : getKey (setKey ([] : Store) url A) url = some A := getKey_setKey_self _ _ _
  have g1 : getKey (setKey (setKey ([] : Store) url A) url B) url = some B :=
    getKey_setKey_self _ _ _
  have e1 := checkWsdl_single_same (fun u => if u = url then some A else none)
    gen (setKey [] url A) url A A hfet (hf A) g0 rfl
  have e3 := checkWsdl_single_diff (fun u => if u = url then some B else none)
    gen (setKey [] url A) url B A hfet (hf B) g0 (Ne.symm hAB)
  have e4 := checkWsdl_single_same (fun u => if u = url then some B else none)
    gen (setKey (setKey [] url A) url B) url B B hfet (hf B) g1 rfl
  have e5 := checkWsdl_single_diff (fun u => if u = url then some C else none)
    gen (setKey (setKey [] url A) url B) url C B hfet (hf C) g1 (Ne.symm hBC)
  simp [runChecks, e1, e3, e4, e5]

/-- Witness for the C5 theorem at a concrete identifier and concrete
fingerprints. -/
theorem checkWsdlChanges_change_sequence_witness :
    runChecks "http://x/s?wsdl" (fun _ => false) ["a1", "a1", "b2", "b2", "c3"]
        (setKey [] "http://x/s?wsdl" "a1")
      = [false, false, true, false, true] :=
  checkWsdlChanges_change_sequence_AABBC "http://x/s?wsdl" "a1" "b2" "c3" (fun _ => false)
    (by decide) (by decide) (by decide)

/-! ## Claim C6 -/

/-- Claim C6: the membership check on runningProcesses and the add to it
happen in one synchronous step of runDotnetSvcUtil (no await separates
lines 128 and 143), so when a first trigger attempt reaches the spawn,
a second back-to-back attempt for the same path — whatever its settings
or parse outcome — is a no-op reported as skipped-already-running and
leaves the state unchanged: exactly one invocation executes. -/
theorem runDotnetSvcUtil_mutual_exclusion
    (a : Bool) (parse : Option SvcOptions) (p : String) (s s1 : ExtState)
    (args : List String) (a2 : Bool) (parse2 : Option SvcOptions)
    (h : svcStart a parse p s = (s1, StartResult.spawned args)) :
    svcStart a2 parse2 p s1 = (s1, StartResult.skippedRunning) := by
  unfold svcStart at h
  split at h
  · simp at h
  · split at h
    · simp at h
    · split at h
      · simp at h
      · rename_i hrec hrun hauto
        cases parse with
        | none => simp at h
        | some o =>
          simp only [Prod.mk.injEq] at h
          obtain ⟨hs, -⟩ := h
          subst hs
          simp [svcStart, hrec, hasStr_cons_self]

/-- Witness for the C6 theorem: a first attempt on a fresh state spawns,
and the immediately following attempt is skipped as already running. -/
theorem runDotnetSvcUtil_mutual_exclusion_witness :
    svcStart false none "ServiceReference/dotnet-svcutil.params.json"
        (⟨[], ["ServiceReference/dotnet-svcutil.params.json"], [], [], [], 0⟩ : ExtState)
      = (⟨[], ["ServiceReference/dotnet-svcutil.params.json"], [], [], [], 0⟩,
         StartResult.skippedRunning) :=
  runDotnetSvcUtil_mutual_exclusion true (some ⟨none, none, none, none, none, none⟩)
    "ServiceReference/dotnet-svcutil.params.json" emptyState
    ⟨[], ["ServiceReference/dotnet-svcutil.params.json"], [], [], [], 0⟩
    ["svcutil", "-d", "."] false none (by decide)

/-! ## Claim C7 -/

/-- Claim C7, counterexample: a configuration whose type-reuse policy is
present but the empty string is present and differs from All, yet the
constructed argument list carries no -ntr flag, because the source
guards the flag with a JavaScript truthiness test that the empty string
fails. -/
theorem buildArgs_empty_typeReuseMode_no_ntr :
    (⟨some ["http://x/s?wsdl"], none, none, none, some "", none⟩ : SvcOptions).typeReuseMode ≠ none
    ∧ (⟨some ["http://x/s?wsdl"], none, none, none, some "", none⟩ : SvcOptions).typeReuseMode
        ≠ some "All"
    ∧ "-ntr" ∉ buildArgs ⟨some ["http://x/s?wsdl"], none, none, none, some "", none⟩ := by
  decide

/-- Claim C7 (amended): the argument list is deterministic and in the
claimed order — svcutil, inputs, -n pairs, -o, -d ., -tf, -ntr, -r
pairs — with the string-valued flags emitted when their field is
present as a non-empty string (and -ntr additionally requiring the
policy to differ from All); on the section-8 example inputs the list is
exactly the one the specification displays. -/
theorem buildArgs_deterministic_order :
    (∀ o : SvcOptions,
      buildArgs o =
        ["svcutil"]
        ++ o.inputs.getD []
        ++ pairFlags "-n" (o.namespaceMappings.getD [])
        ++ (match o.outputFile with
            | some f => if f ≠ "" then ["-o", f] else []
            | none => [])
        ++ ["-d", "."]
        ++ (match o.targetFramework with
            | some tf => if tf ≠ "" then ["-tf", tf] else []
            | none => [])
        ++ (match o.typeReuseMode with
            | some m => if m ≠ "" ∧ m ≠ "All" then ["-ntr"] else []
            | none => [])
        ++ pairFlags "-r" (o.references.getD []))
    ∧ buildArgs ⟨some ["http://x/s?wsdl"], some ["*, Foo"], some "Reference.cs",
          some "net8.0", some "Custom", some ["A, \x7bA,1.0\x7d"]⟩
      = ["svcutil", "http://x/s?wsdl", "-n", "*, Foo", "-o", "Reference.cs",
         "-d", ".", "-tf", "net8.0", "-ntr", "-r", "A, \x7bA,1.0\x7d"] := by
  constructor
  · intro o
    obtain ⟨i, n, f, tf, m, r⟩ := o
    cases i <;> cases n <;> cases f <;> cases tf <;> cases m <;> cases r <;>
      (simp [buildArgs, pairFlags, Option.getD, List.append_assoc];
       try split_ifs <;> simp [List.append_assoc])
  · decide

/-! ## Claim C8 -/

/-- Claim C8, counterexample: the break (line 760) sits after the
awaited policy action inside the try block, so when the generation
attempt for a detected change rejects (spawn-error reject at line 286),
the catch at line 762 swallows it and the same pass continues: here a
change is detected at http://c (its store entry is updated), the policy
action throws, and http://d — after the first detected change in the
batch — is still fetched and compared in that check, refuting the
claimed unconditional stop. -/
theorem checkWsdlChanges_spawn_error_continues_batch :
    (checkWsdlChanges
        (fun v => if v = "http://c" then some "h1"
          else if v = "http://d" then some "k0" else (none : Option String))
        (fun _ => true)
        ["http://c", "http://d"]
        [("http://c", "h0"), ("http://d", "k0")]).changed = ["http://c"]
    ∧ (checkWsdlChanges
        (fun v => if v = "http://c" then some "h1"
          else if v = "http://d" then some "k0" else (none : Option String))
        (fun _ => true)
        ["http://c", "http://d"]
        [("http://c", "h0"), ("http://d", "k0")]).fetched
      = ["http://c", "http://d"] := by
  decide

/-- Claim C8 (amended): within one polling pass, identifiers before the
first change — whether unchanged, failing to fetch, or not
scheme-prefixed — do not stop the batch, and the pass breaks at the
first identifier whose change is detected, provided its awaited policy
action (auto-update generation, or prompt and possible generation)
resolves rather than throwing: then only that store entry is updated,
the fetch attempts are exactly the fetchable identifiers up to and
including it, and the identifiers after it are left for the next cycle.
When the awaited generation rejects, the per-identifier catch lets the
same pass continue past the detected change. -/
theorem checkWsdlChanges_stops_at_first_change
    (fetch : String → Option String) (gen : String → Bool) (st : Store)
    (pre : List String) (u : String) (suf : List String)
    (h₁ : ∀ v ∈ pre, firesChange fetch st v = false)
    (h₂ : firesChange fetch st u = true)
    (h₃ : gen u = false) :
    ∃ h, fetch u = some h ∧
      checkWsdlChanges fetch gen (pre ++ u :: suf) st
        = ⟨setKey st u h, pre.filter isFetchable ++ [u], [u]⟩ := by
  unfold firesChange at h₂
  cases hf : fetch u with
  | none => rw [hf] at h₂; simp at h₂
  | some h =>
    cases hg : getKey st u with
    | none => rw [hf, hg] at h₂; simp at h₂
    | some old =>
      rw [hf, hg] at h₂
      simp only [Bool.and_eq_true, decide_eq_true_eq] at h₂
      obtain ⟨hfet, hne⟩ := h₂
      refine ⟨h, rfl, ?_⟩
      induction pre with
      | nil =>
        simp only [List.nil_append, List.filter_nil]
        simp [checkWsdlChanges, hfet, hf, hg, hne, h₃]
      | cons v pre ih =>
        have hv : firesChange fetch st v = false := h₁ v (List.mem_cons_self v pre)
        have h₁' : ∀ w ∈ pre, firesChange fetch st w = false :=
          fun w hw => h₁ w (List.mem_cons_of_mem v hw)
        have heq := ih h₁'
        rw [List.cons_append, checkWsdl_cons_nofire fetch gen st v _ hv, heq]
        by_cases hfv : isFetchable v = true
        · simp [hfv, List.filter_cons]
        · have hfv' : isFetchable v = false := by
            revert hfv; cases isFetchable v <;> simp
          simp [hfv', List.filter_cons]

/-- Witness for the amended C8 theorem: a batch whose first three
identifiers are unchanged, unreachable, and non-fetchable respectively,
whose fourth changed with a resolving policy action, and whose fifth is
therefore not examined. -/
theorem checkWsdlChanges_stops_at_first_change_witness :
    ∃ h, (fun v => if v = "http://a" then some "h1"
            else if v = "http://c" then some "h2" else (none : Option String)) "http://c"
          = some h ∧
      checkWsdlChanges
          (fun v => if v = "http://a" then some "h1"
            else if v = "http://c" then some "h2" else (none : Option String))
          (fun _ => false)
          (["http://a", "http://b", "Service.wsdl"] ++ "http://c" :: ["http://d"])
          [("http://a", "h1"), ("http://c", "h0")]
        = ⟨setKey [("http://a", "h1"), ("http://c", "h0")] "http://c" h,
           ["http://a", "http://b", "Service.wsdl"].filter isFetchable ++ ["http://c"],
           ["http://c"]⟩ :=
  checkWsdlChanges_stops_at_first_change
    (fun v => if v = "http://a" then some "h1"
      else if v = "http://c" then some "h2" else (none : Option String))
    (fun _ => false)
    [("http://a", "h1"), ("http://c", "h0")]
    ["http://a", "http://b", "Service.wsdl"] "http://c" ["http://d"]
    (by decide) (by decide) (by decide)

/-! ## Claim C9 -/

/-- Claim C9: every trigger path — watcher change, watcher create, the
manual command, monitor auto-update, and an accepted monitor prompt —
funnels into the same runDotnetSvcUtil entry, and with the autoRun
setting false that entry never reaches the spawn, whatever the path,
state, or parse outcome. -/
theorem runDotnetSvcUtil_autoRun_gates_all_triggers
    (t : Trigger) (parse : Option SvcOptions) (p : String) (s : ExtState)
    (args : List String) :
    (handleTrigger t false parse p s).2 ≠ StartResult.spawned args := by
  unfold handleTrigger svcStart
  split
  · simp
  · split
    · simp
    · simp

/-! ## Claim C10 -/

/-- Claim C10: the recurring task created by startWsdlMonitoring closes
over the inputs list read from the configuration document at start
time; a tick polls exactly that snapshot, and its result does not
depend on what the document's inputs are at tick time. -/
theorem startWsdlMonitoring_inputs_snapshot
    (fetch fetch2 : String → Option String) (gen : String → Bool)
    (inputs : List String) (p : String) (s : ExtState)
    (cur cur2 : Option (List String)) (st : Store)
    (hp : isParamsPath p = true) (hne : inputs.isEmpty = false) :
    ∃ t : Timer,
      (startWsdlMonitoring fetch (some inputs) p s).liveTimers.head? = some t
      ∧ t.inputs = inputs
      ∧ monitorTick fetch2 gen cur t st = checkWsdlChanges fetch2 gen inputs st
      ∧ monitorTick fetch2 gen cur t st = monitorTick fetch2 gen cur2 t st := by
  refine ⟨⟨s.nextTimer, p, inputs⟩, ?_, rfl, rfl, rfl⟩
  simp [startWsdlMonitoring, hp, hne]

/-- Witness for the C10 theorem at a concrete monitored target, with
the document's inputs differing between the two tick arguments. -/
theorem startWsdlMonitoring_inputs_snapshot_witness :
    ∃ t : Timer,
      (startWsdlMonitoring (fun _ => none) (some ["http://x"])
          "ServiceReference/dotnet-svcutil.params.json" emptyState).liveTimers.head? = some t
      ∧ t.inputs = ["http://x"]
      ∧ monitorTick (fun _ => none) (fun _ => false) (some ["http://x"]) t []
          = checkWsdlChanges (fun _ => none) (fun _ => false) ["http://x"] []
      ∧ monitorTick (fun _ => none) (fun _ => false) (some ["http://x"]) t []
          = monitorTick (fun _ => none) (fun _ => false) (some ["http://y"]) t [] :=
  startWsdlMonitoring_inputs_snapshot (fun _ => none) (fun _ => none) (fun _ => false)
    ["http://x"] "ServiceReference/dotnet-svcutil.params.json" emptyState
    (some ["http://x"]) (some ["http://y"]) [] (by decide) (by decide)

end SoapAutoRunner
